import Mathlib

/-
Shallow embedding of the request-scoped processing pipeline of the
BajajFinserv document question-answering service (FastAPI + LangChain).

Python strings are modelled as lists of characters where slicing and
length matter, exceptions as an explicit error type threaded through
`Except`, and the asynchronous pipeline as deterministic functions over
the outcomes of its external calls (download, PDF extraction, vector
search, LLM generation), which are supplied as parameters.
-/

set_option autoImplicit false
set_option linter.unusedVariables false

/-- PyStr models a Python string as a list of characters, so that
slicing, stripping and length behave like the source. -/
abbrev PyStr := List Char

/-- str.strip of Python: drop whitespace from both ends. -/
def pyStrip (s : PyStr) : PyStr :=
  ((s.dropWhile Char.isWhitespace).reverse.dropWhile Char.isWhitespace).reverse

/-- The exception taxonomy of app/error_handling.py (CustomExceptions),
plus fastapi.HTTPException and asyncio.TimeoutError, both of which the
request handler in main.py raises and catches as well. -/
inductive Err where
  | httpException (statusCode : Nat) (detail : String)
  | timeoutError (operation : String) (limit : ℚ)
  | externalService (service : String) (errorText : String)
  | resourceInit (resource : String) (errorText : String)
  | documentProcessing (operation : String) (errorText : String)
  | vectorStore (operation : String) (errorText : String)
  | asyncioTimeout
  | generic (msg : String)
deriving DecidableEq

/-- str of an exception: the message each class passes to its
superclass constructor in app/error_handling.py. -/
def Err.message : Err → String
  | .httpException _ detail => detail
  | .timeoutError op limit =>
      "Operation \x27" ++ op ++ "\x27 timed out after " ++ toString limit ++ " seconds"
  | .externalService s e => "External service \x27" ++ s ++ "\x27 error: " ++ e
  | .resourceInit r e => "Failed to initialize resource \x27" ++ r ++ "\x27: " ++ e
  | .documentProcessing o e => "Document processing error in \x27" ++ o ++ "\x27: " ++ e
  | .vectorStore o e => "Vector store error in \x27" ++ o ++ "\x27: " ++ e
  | .asyncioTimeout => "TimeoutError"
  | .generic m => m

/-- Whether an error is of the ResourceInitialization kind
(CustomExceptions.ResourceInitializationError). -/
def Err.isResourceInit : Err → Bool
  | .resourceInit _ _ => true
  | _ => false

/-- ErrorHandler.safe_execute_with_fallback (app/error_handling.py
273-293): run the primary; on any failure run the fallback with the same
arguments; if the fallback also fails, raise
ExternalServiceError(operation_name, str(e)) where e is the PRIMARY
error. -/
def safe_execute_with_fallback {α β : Type} (primary_func fallback_func : α → Except Err β)
    (operation_name : String) (args : α) : Except Err β :=
  match primary_func args with
  | .ok v => .ok v
  | .error e =>
    match fallback_func args with
    | .ok w => .ok w
    | .error _ => .error (.externalService operation_name e.message)

/-- Trace of one run of the retry_handler wrapper: the final outcome, the
number of invocations of the wrapped operation, and the sleeps performed
before each retry (in seconds), in chronological order. -/
structure RetryTrace (α : Type) where
  result : Except Err α
  calls : Nat
  waits : List ℚ

/-- The for-loop of retry_handler (app/error_handling.py 108-138). The
wrapped operation is modelled as op : Nat → Except Err α giving the
outcome of its n-th invocation (0-indexed); fuel is the number of
remaining loop iterations of range(max_retries + 1) and attempt the
current loop index. The fuel-0 case is the unreachable raise after the
loop. An error whose kind is not in retryableKinds is not caught by the
except clause and propagates at once. -/
def retryLoop {α : Type} (retryableKinds : Err → Bool) (backoff_factor : ℚ)
    (max_retries : Nat) (op : Nat → Except Err α) : Nat → Nat → RetryTrace α
  | 0, _ => ⟨.error (.generic "unreachable"), 0, []⟩
  | fuel + 1, attempt =>
    match op attempt with
    | .ok v => ⟨.ok v, 1, []⟩
    | .error e =>
      if retryableKinds e then
        if attempt = max_retries then ⟨.error e, 1, []⟩
        else
          let t := retryLoop retryableKinds backoff_factor max_retries op fuel (attempt + 1)
          ⟨t.result, t.calls + 1, backoff_factor * 2 ^ attempt :: t.waits⟩
      else ⟨.error e, 1, []⟩

/-- retry_handler (app/error_handling.py 108-138): run the loop for
max_retries + 1 iterations starting at attempt 0. -/
def retry_handler {α : Type} (max_retries : Nat) (backoff_factor : ℚ)
    (retryableKinds : Err → Bool) (op : Nat → Except Err α) : RetryTrace α :=
  retryLoop retryableKinds backoff_factor max_retries op (max_retries + 1) 0

/-- FallbackMechanisms.fallback_answer_generation: constant apology
string, independent of the question. -/
def fallback_answer_generation (question : String) : String :=
  "I\x27m sorry, I couldn\x27t generate an answer for this question due to a technical issue. Please try rephrasing your question or try again later."

/-- FallbackMechanisms.fallback_vector_search: constant degraded-context
string, independent of the question. -/
def fallback_vector_search (question : String) : String :=
  "I couldn\x27t search the document for relevant information. Please ensure the document was processed correctly and try again."

/-- DirectAnswerGenerator._answer_single_question_with_fallback
(direct_answer_generator.py 92-109): the per-question computation with
its internal timeouts and retries is modelled by primary; the fallback
lambda ignores the vector store and index and always returns the apology
string. -/
def answer_single_question_with_fallback (primary : String → Nat → Except Err String)
    (question : String) (idx : Nat) : Except Err String :=
  safe_execute_with_fallback (fun p => primary p.1 p.2)
    (fun p => .ok (fallback_answer_generation p.1))
    ("question_" ++ toString idx) (question, idx)

/-- enumerate combined with per-element task creation: map with a running
0-based index, as in the task list comprehension over
enumerate(questions). -/
def mapWithIndex {α β : Type} (f : Nat → α → β) : Nat → List α → List β
  | _, [] => []
  | i, a :: as => f i a :: mapWithIndex f (i + 1) as

/-- The per-task outcomes handed to asyncio.gather in
answer_questions_parallel: one wrapped single-question computation per
question, in input order. -/
def batch_results (v : Nat) (primary : Nat → String → Nat → Except Err String)
    (questions : List String) : List (Except Err String) :=
  mapWithIndex (fun idx q => answer_single_question_with_fallback (primary v) q idx) 0 questions

/-- DirectAnswerGenerator.answer_questions_parallel
(direct_answer_generator.py 44-90). The vector-store handle is
Option Nat, none modelling an absent handle; primary v q idx is the
outcome of _answer_single_question. An absent vector store raises
VectorStoreError inside the try block, and the except clause returns one
fallback answer per question; asyncio.gather(*tasks,
return_exceptions=False) either yields every task value in task order or
raises, in which case the same except clause produces the per-question
fallback answers. -/
def answer_questions_parallel (vs : Option Nat)
    (primary : Nat → String → Nat → Except Err String)
    (questions : List String) : List String :=
  if questions.isEmpty then []
  else
    match vs with
    | none => questions.map fallback_answer_generation
    | some v =>
      if (batch_results v primary questions).all (fun r => r.toOption.isSome) then
        (batch_results v primary questions).map (fun r => r.toOption.getD "")
      else questions.map fallback_answer_generation

/-- The answer the generator produces for the question at index idx, as
a function of that question and the batch outcome: the unwrapped
per-question result when the gather succeeds, the apology fallback
otherwise (absent vector store or a raising task). -/
def answerFor (vs : Option Nat) (primary : Nat → String → Nat → Except Err String)
    (questions : List String) (idx : Nat) (q : String) : String :=
  match vs with
  | none => fallback_answer_generation q
  | some v =>
    if (batch_results v primary questions).all (fun r => r.toOption.isSome) then
      (answer_single_question_with_fallback (primary v) q idx).toOption.getD ""
    else fallback_answer_generation q

/-- The "..." suffix appended to a truncated chunk. -/
def threeDots : PyStr := ['.', '.', '.']

/-- The ordinal label prefixed to each retrieved document in the context. -/
def documentLabel (i : Nat) : PyStr := ("Document " ++ toString i ++ ":\n").toList

/-- The context-assembly loop of
DirectAnswerGenerator._retrieve_relevant_docs
(direct_answer_generator.py 200-227): docs are the page contents of the
retrieved documents, i the 1-based enumerate index, total the running
total_length; max_context_length = 4000, and a chunk that would exceed
the budget is truncated (with "..." appended) only when
remaining_space > 100, else the loop breaks. -/
def buildContextParts (docs : List PyStr) : List PyStr :=
  go docs 1 0
where
  go : List PyStr → Nat → Nat → List PyStr
  | [], _, _ => []
  | d :: rest, i, total =>
    if (pyStrip d).length = 0 then go rest (i + 1) total
    else if total + (pyStrip d).length > 4000 then
      if 4000 - total > 100 then
        (documentLabel i ++ ((pyStrip d).take (4000 - total) ++ threeDots)) ::
          go rest (i + 1) (total + ((pyStrip d).take (4000 - total) ++ threeDots).length)
      else []
    else
      (documentLabel i ++ pyStrip d) :: go rest (i + 1) (total + (pyStrip d).length)

/-- The context assembly as worded by claim C6: truncate with an
ellipsis when AT LEAST 100 characters of budget remain (>= 100),
otherwise stop. The remaining budget is tracked as an integer. -/
def contextAssemblyClaim (docs : List PyStr) : List PyStr :=
  goC docs 1 0
where
  goC : List PyStr → Nat → Int → List PyStr
  | [], _, _ => []
  | d :: rest, i, used =>
    if (pyStrip d).length = 0 then goC rest (i + 1) used
    else if used + ((pyStrip d).length : Int) > 4000 then
      if 4000 - used ≥ 100 then
        (documentLabel i ++ ((pyStrip d).take (4000 - used).toNat ++ threeDots)) ::
          goC rest (i + 1)
            (used + (((pyStrip d).take (4000 - used).toNat ++ threeDots).length : Int))
      else []
    else
      (documentLabel i ++ pyStrip d) :: goC rest (i + 1) (used + ((pyStrip d).length : Int))

/-- The context assembly as worded by the amended claim C6: truncate
with an ellipsis when MORE THAN 100 characters of budget remain (> 100),
otherwise stop. The remaining budget is tracked as an integer. -/
def contextAssemblyAmended (docs : List PyStr) : List PyStr :=
  goA docs 1 0
where
  goA : List PyStr → Nat → Int → List PyStr
  | [], _, _ => []
  | d :: rest, i, used =>
    if (pyStrip d).length = 0 then goA rest (i + 1) used
    else if used + ((pyStrip d).length : Int) > 4000 then
      if 4000 - used > 100 then
        (documentLabel i ++ ((pyStrip d).take (4000 - used).toNat ++ threeDots)) ::
          goA rest (i + 1)
            (used + (((pyStrip d).take (4000 - used).toNat ++ threeDots).length : Int))
      else []
    else
      (documentLabel i ++ pyStrip d) :: goA rest (i + 1) (used + ((pyStrip d).length : Int))

/-- The two ways a download can fail around temporary-file creation in
_download_document_with_progress: before NamedTemporaryFile runs, or
during the chunked body read after the file exists; or it succeeds. -/
inductive DlOutcome where
  | failBeforeCreate (e : Err)
  | failAfterCreate (e : Err)
  | success
deriving DecidableEq

/-- _download_document_with_progress (app/input_documents.py 84-132),
acting on the set of existing temporary files; fresh is the name
NamedTemporaryFile allocates. When the chunked read fails after the file
was created, the function raises and its local temp_file_path is lost to
the caller. -/
def download_document_with_progress (outcome : DlOutcome) (fresh : String)
    (fs : List String) : Except Err String × List String :=
  match outcome with
  | .failBeforeCreate e => (.error e, fs)
  | .failAfterCreate e => (.error e, fs ++ [fresh])
  | .success => (.ok fresh, fs ++ [fresh])

/-- _cleanup_temp_file (app/input_documents.py 173-180): remove the file
when the path is set and the file exists. -/
def cleanup_temp_file : Option String → List String → List String
  | none, fs => fs
  | some p, fs => if p ∈ fs then fs.erase p else fs

/-- _process_document_primary (app/input_documents.py 37-82):
temp_file_path starts as None and is assigned only when
_download_document_with_progress returns normally; the finally block
cleans up whatever temp_file_path holds. pdfResult is the outcome of
_process_pdf_with_timeout, and an empty page list fails the content
validation. -/
def process_document_primary (outcome : DlOutcome) (pdfResult : Except Err (List PyStr))
    (fresh : String) (fs : List String) : Except Err (List PyStr) × List String :=
  match download_document_with_progress outcome fresh fs with
  | (.error e, fs2) => (.error e, cleanup_temp_file none fs2)
  | (.ok path, fs2) =>
    match pdfResult with
    | .error e => (.error e, cleanup_temp_file (some path) fs2)
    | .ok pages =>
      if pages.isEmpty then
        (.error (.documentProcessing "content_validation" "No content extracted from document"),
          cleanup_temp_file (some path) fs2)
      else (.ok pages, cleanup_temp_file (some path) fs2)

/-- GlobalResources (app/global_resources.py 22-45). The singleton class
state is Option GlobalResources (the _instance class attribute); the
three expensive handles are Option Nat. initializedFlag models the
_initialized flag consulted by __init__. -/
structure GlobalResources where
  initializedFlag : Bool
  pinecone_client : Option Nat
  pinecone_index_name : String
  embeddings : Option Nat
  llm : Option Nat
deriving DecidableEq

/-- The bare object __new__ allocates when no instance exists yet:
attributes not yet set, class-level _initialized still False. -/
def GlobalResources.newInstance : GlobalResources := ⟨false, none, "", none, none⟩

/-- __init__ (global_resources.py 38-45): reset the handle fields only
when _initialized is still false, then set the flag. -/
def GlobalResources.pyInit (g : GlobalResources) : GlobalResources :=
  if g.initializedFlag then g
  else ⟨true, none, "hackrx-query-index", none, none⟩

/-- A call GlobalResources(): __new__ (reuse _instance or allocate a
fresh object) followed by __init__ on the returned instance. -/
def GlobalResources.construct : Option GlobalResources → GlobalResources
  | none => GlobalResources.pyInit GlobalResources.newInstance
  | some g => GlobalResources.pyInit g

/-- n successive constructions starting from class state s; after each
call the class state holds the single returned instance. -/
def GlobalResources.constructN : Nat → Option GlobalResources → Option GlobalResources
  | 0, s => s
  | n + 1, s => some (GlobalResources.construct (GlobalResources.constructN n s))

/-- is_initialized (global_resources.py 387-393): all three handles are
non-null. -/
def GlobalResources.is_initialized (g : GlobalResources) : Bool :=
  g.pinecone_client.isSome && g.embeddings.isSome && g.llm.isSome

/-- One tracked request of the performance monitor: its id and whether
finish() has been called on it. -/
structure RequestMetrics where
  request_id : String
  finishedFlag : Bool
deriving DecidableEq

/-- RequestMetrics.finish (performance_monitor.py 104-108). -/
def RequestMetrics.finish (m : RequestMetrics) : RequestMetrics := ⟨m.request_id, true⟩

/-- The PerformanceMonitor state (performance_monitor.py 195-209):
_active_requests as an association list and _completed_requests;
_max_completed_requests is the literal 100. -/
structure PerformanceMonitor where
  active : List (String × RequestMetrics)
  completed : List RequestMetrics
deriving DecidableEq

/-- dict.pop(request_id, None) on the active-request table: the removed
entry together with the remaining table, or none. -/
def popActive (request_id : String) :
    List (String × RequestMetrics) → Option (RequestMetrics × List (String × RequestMetrics))
  | [] => none
  | (k, v) :: rest =>
    if k = request_id then some (v, rest)
    else (popActive request_id rest).map fun p => (p.1, (k, v) :: p.2)

/-- PerformanceMonitor.finish_request (performance_monitor.py 224-241):
pop the request from the active table (returning None untouched if
absent), finish it, append it to the completed history, and keep only
the last 100 completed entries. -/
def PerformanceMonitor.finish_request (pm : PerformanceMonitor) (request_id : String) :
    Option RequestMetrics × PerformanceMonitor :=
  match popActive request_id pm.active with
  | none => (none, pm)
  | some (m, rest) =>
    if (pm.completed ++ [m.finish]).length > 100 then
      (some m.finish,
        ⟨rest, (pm.completed ++ [m.finish]).drop ((pm.completed ++ [m.finish]).length - 100)⟩)
    else (some m.finish, ⟨rest, pm.completed ++ [m.finish]⟩)

/-- ErrorHandler.handle_request_error (app/error_handling.py 238-271):
map an internal error to the HTTPException the handler surfaces. -/
def handle_request_error (error : Err) (operation : String) : Err :=
  match error with
  | .timeoutError op limit =>
      .httpException 504
        ("Request timeout: " ++ op ++ " took longer than " ++ toString limit ++ " seconds")
  | .externalService s e => .httpException 502 ("External service error: " ++ s ++ " - " ++ e)
  | .documentProcessing o e =>
      .httpException 422 ("Document processing failed: " ++ o ++ " - " ++ e)
  | .vectorStore o e => .httpException 503 ("Vector store error: " ++ o ++ " - " ++ e)
  | e => .httpException 500 ("Internal server error in " ++ operation ++ ": " ++ e.message)

/-- The except cascade of run_submission (main.py 253-288): an
HTTPException is re-raised unchanged, a bare asyncio.TimeoutError
becomes a 504, and every custom exception goes through
handle_request_error. -/
def surfaceError : Err → Err
  | .httpException s d => .httpException s d
  | .asyncioTimeout => .httpException 504 "Request timeout: Processing took longer than expected"
  | e => handle_request_error e "api_request"

/-- The outcomes of the four pipeline stages of run_submission, supplied
as data: the document-processing result, the chunker, the vector-store
creation, the per-question answer computation, and whether the
asyncio.wait_for around answer generation expired. Each stage outcome
already accounts for the timeout wrapper around that stage. -/
structure Stages where
  processDocument : Except Err (List PyStr)
  chunkDocument : List PyStr → Except Err (List PyStr)
  getVectorStore : List PyStr → Except Err Nat
  answerPrimary : Nat → String → Nat → Except Err String
  answerTimedOut : Bool

/-- run_submission (main.py 137-288): verify the registry is
initialized (503), validate the question count (400 below 1 or above
10), then run download → chunk → index → answer in order. The second
component of the result lists the pipeline stages that were started, in
the names used by performance_monitor.track_operation. -/
def run_submission (initialized : Bool) (questions : List String) (st : Stages) :
    Except Err (List String) × List String :=
  if initialized = false then
    (.error (.httpException 503 "Service unavailable: Global resources not initialized"), [])
  else if questions.length = 0 then
    (.error (.httpException 400 "At least one question is required"), [])
  else if questions.length > 10 then
    (.error (.httpException 400 "Too many questions (maximum 10 allowed)"), [])
  else
    match st.processDocument with
    | .error e => (.error (surfaceError e), ["document_download"])
    | .ok pages =>
      match st.chunkDocument pages with
      | .error e => (.error (surfaceError e), ["document_download", "document_chunking"])
      | .ok texts =>
        match st.getVectorStore texts with
        | .error e =>
            (.error (surfaceError e),
              ["document_download", "document_chunking", "vector_store_creation"])
        | .ok vs =>
          if st.answerTimedOut then
            (.error (.httpException 504 "Request timeout: Processing took longer than expected"),
              ["document_download", "document_chunking", "vector_store_creation",
                "answer_generation"])
          else
            (.ok (answer_questions_parallel (some vs) st.answerPrimary questions),
              ["document_download", "document_chunking", "vector_store_creation",
                "answer_generation"])

/-- A trivial stage pack used to evaluate the handler on concrete
inputs. -/
def stubStages : Stages := ⟨.ok [], fun _ => .ok [], fun _ => .ok 0, fun _ _ _ => .ok "", false⟩

/-- A registry instance whose __init__ ran but whose handles were never
set: is_initialized is false. -/
def gNotReady : GlobalResources := ⟨true, none, "hackrx-query-index", none, none⟩

/-- A registry instance after a successful initialization: all three
handles set. -/
def gReady : GlobalResources := ⟨true, some 1, "hackrx-query-index", some 2, some 3⟩

/-- A concrete operation that fails twice and then succeeds, for
evaluating the retry wrapper. -/
def opW : Nat → Except Err String :=
  fun n => if n < 2 then .error (.generic "transient") else .ok "done"

/-- A concrete per-question computation that always succeeds. -/
def primaryW : Nat → String → Nat → Except Err String :=
  fun _ q _ => .ok (String.append "answer: " q)

/-- A concrete primary operation that always fails. -/
def pW : Nat → Except Err Nat := fun _ => .error (.generic "primary boom")

/-- A concrete fallback operation that always fails. -/
def fW : Nat → Except Err Nat := fun _ => .error (.generic "fallback boom")

/-- Auxiliary: mapWithIndex preserves length. -/
lemma mapWithIndex_length {α β : Type} (f : Nat → α → β) (s : Nat) (l : List α) :
    (mapWithIndex f s l).length = l.length := by
  induction l generalizing s with
  | nil => rfl
  | cons a as ih => simp [mapWithIndex, ih]

/-- Auxiliary: the i-th element of mapWithIndex. -/
lemma mapWithIndex_getq {α β : Type} (f : Nat → α → β) (s : Nat) (l : List α) (i : Nat) :
    (mapWithIndex f s l).get? i = (l.get? i).map fun a => f (s + i) a := by
  induction l generalizing s i with
  | nil => rfl
  | cons a as ih =>
    cases i with
    | zero => simp [mapWithIndex]
    | succ j =>
      simp only [mapWithIndex, List.get?_cons_succ]
      rw [ih (s + 1) j, show s + 1 + j = s + (j + 1) from by omega]

/-- Auxiliary: a plain map is a mapWithIndex that ignores the index. -/
lemma map_eq_mapWithIndex {α β : Type} (f : α → β) (s : Nat) (l : List α) :
    l.map f = mapWithIndex (fun _ a => f a) s l := by
  induction l generalizing s with
  | nil => rfl
  | cons a as ih => simp [mapWithIndex, ih (s + 1)]

/-- Auxiliary: composing a map after mapWithIndex. -/
lemma mapWithIndex_map {α β γ : Type} (g : β → γ) (f : Nat → α → β) (s : Nat) (l : List α) :
    (mapWithIndex f s l).map g = mapWithIndex (fun i a => g (f i a)) s l := by
  induction l generalizing s with
  | nil => rfl
  | cons a as ih => simp [mapWithIndex, ih (s + 1)]

/-- Auxiliary: answer_questions_parallel is pointwise answerFor. -/
lemma answer_questions_parallel_eq (vs : Option Nat)
    (primary : Nat → String → Nat → Except Err String) (questions : List String) :
    answer_questions_parallel vs primary questions =
      mapWithIndex (fun i q => answerFor vs primary questions i q) 0 questions := by
  cases questions with
  | nil => cases vs <;> rfl
  | cons q qs =>
    cases vs with
    | none =>
      simp only [answer_questions_parallel, List.isEmpty_cons, Bool.false_eq_true, if_false]
      rw [map_eq_mapWithIndex fallback_answer_generation 0]
      congr 1
    | some v =>
      cases hall : (batch_results v primary (q :: qs)).all fun r => r.toOption.isSome with
      | true =>
        simp only [answer_questions_parallel, List.isEmpty_cons, Bool.false_eq_true, if_false,
          hall, if_true]
        rw [batch_results, mapWithIndex_map]
        congr 1
        funext i a
        simp [answerFor, hall]
      | false =>
        simp only [answer_questions_parallel, List.isEmpty_cons, Bool.false_eq_true, if_false,
          hall]
        rw [map_eq_mapWithIndex fallback_answer_generation 0]
        congr 1
        funext i a
        simp [answerFor, hall]

/-- Auxiliary: the answer list always has the length of the question
list. -/
lemma answer_questions_parallel_length (vs : Option Nat)
    (primary : Nat → String → Nat → Except Err String) (questions : List String) :
    (answer_questions_parallel vs primary questions).length = questions.length := by
  rw [answer_questions_parallel_eq]
  exact mapWithIndex_length _ 0 questions

/-- C1: for every non-empty list of at most 10 questions accepted by the
request handler, the returned answer list has exactly as many elements
as the question list and the i-th answer is the one computed for the
i-th question (input order preserved), even when individual questions
fail and are replaced by fallback strings; the handler returns exactly
the list produced by answer_questions_parallel. -/
theorem C1_length_and_order (vs : Option Nat)
    (primary : Nat → String → Nat → Except Err String) (questions : List String)
    (hne : questions ≠ []) (hlen : questions.length ≤ 10) :
    (answer_questions_parallel vs primary questions).length = questions.length ∧
    (∀ i : Nat, (answer_questions_parallel vs primary questions).get? i =
      (questions.get? i).map fun q => answerFor vs primary questions i q) ∧
    (∀ (st : Stages) (pages texts : List PyStr) (v : Nat),
      st.processDocument = .ok pages → st.chunkDocument pages = .ok texts →
      st.getVectorStore texts = .ok v → st.answerTimedOut = false →
      (run_submission true questions st).1 =
        .ok (answer_questions_parallel (some v) st.answerPrimary questions)) := by
  refine ⟨answer_questions_parallel_length vs primary questions, ?_, ?_⟩
  · intro i
    rw [answer_questions_parallel_eq, mapWithIndex_getq]
    simp
  · intro st pages texts v hdoc hchunk hvs hto
    have h0 : ¬ questions.length = 0 := fun hc => hne (List.length_eq_zero.mp hc)
    have h10 : ¬ questions.length > 10 := by omega
    simp [run_submission, h0, h10, hdoc, hchunk, hvs, hto]

/-- C1 witness: a concrete two-question batch evaluated through the
theorem. -/
theorem C1_witness :
    (answer_questions_parallel (some 0) primaryW ["alpha", "beta"]).length = 2 :=
  (C1_length_and_order (some 0) primaryW ["alpha", "beta"] (by simp) (by norm_num)).1

/-- C2: for every primary/fallback pair run through
safe_execute_with_fallback: a primary success is returned; on primary
failure the fallback runs on the same arguments and its result is
returned; when the fallback fails too, the surfaced error is the
ExternalService kind carrying the operation name and the primary
error message, never the raw fallback exception. -/
theorem C2_fallback_wrapper {α β : Type} (primary_func fallback_func : α → Except Err β)
    (operation_name : String) (args : α) :
    (∀ v, primary_func args = .ok v →
      safe_execute_with_fallback primary_func fallback_func operation_name args = .ok v) ∧
    (∀ e w, primary_func args = .error e → fallback_func args = .ok w →
      safe_execute_with_fallback primary_func fallback_func operation_name args = .ok w) ∧
    (∀ e f, primary_func args = .error e → fallback_func args = .error f →
      safe_execute_with_fallback primary_func fallback_func operation_name args =
        .error (.externalService operation_name e.message)) := by
  refine ⟨?_, ?_, ?_⟩ <;> intros <;> simp [safe_execute_with_fallback, *]

/-- C2 witness: both primary and fallback fail on a concrete input; the
surfaced error is the ExternalService kind with the primary message. -/
theorem C2_witness :
    safe_execute_with_fallback pW fW "opX" 0 =
      .error (.externalService "opX" "primary boom") :=
  (C2_fallback_wrapper pW fW "opX" 0).2.2 (.generic "primary boom")
    (.generic "fallback boom") rfl rfl

/-- C10: answer_questions_parallel on an empty question list returns the
empty list without consulting the vector store or the per-question
computation, even when the vector-store handle is absent. -/
theorem C10_empty_questions (vs : Option Nat)
    (primary : Nat → String → Nat → Except Err String) :
    answer_questions_parallel vs primary [] = [] := rfl

/-- Auxiliary: the cons of a wait onto shifted waits is the waits list
of the next attempt window. -/
lemma range_waits_cons (b : ℚ) (a k : Nat) :
    b * 2 ^ a :: ((List.range k).map fun i => b * 2 ^ (a + 1 + i)) =
      (List.range (k + 1)).map fun i => b * 2 ^ (a + i) := by
  rw [List.range_succ_eq_map, List.map_cons, List.map_map]
  have hfe : ((fun i => b * 2 ^ (a + i)) ∘ Nat.succ) = fun i => b * 2 ^ (a + 1 + i) := by
    funext i
    simp only [Function.comp_apply]
    rw [show a + Nat.succ i = a + 1 + i from by omega]
  rw [hfe]
  simp

/-- Auxiliary: the retry loop when the first k attempts starting at a
fail with retryable errors and attempt a+k succeeds. -/
lemma retryLoop_ok {α : Type} (b : ℚ) (retryableKinds : Err → Bool) (m : Nat)
    (op : Nat → Except Err α) :
    ∀ (k a : Nat) (v : α), a + k ≤ m →
      (∀ i, i < k → ∃ e, op (a + i) = .error e ∧ retryableKinds e = true) →
      op (a + k) = .ok v →
      retryLoop retryableKinds b m op (m + 1 - a) a =
        ⟨.ok v, k + 1, (List.range k).map fun i => b * 2 ^ (a + i)⟩ := by
  intro k
  induction k with
  | zero =>
    intro a v ha _ hok
    rw [Nat.add_zero] at hok
    obtain ⟨f, hf⟩ : ∃ f, m + 1 - a = f + 1 := ⟨m - a, by omega⟩
    rw [hf]
    simp [retryLoop, hok]
  | succ k ih =>
    intro a v ha hfail hok
    obtain ⟨e, he, hre⟩ := hfail 0 (Nat.succ_pos k)
    rw [Nat.add_zero] at he
    have hne : ¬ a = m := by omega
    obtain ⟨f, hf⟩ : ∃ f, m + 1 - a = f + 1 := ⟨m - a, by omega⟩
    have hf2 : f = m + 1 - (a + 1) := by omega
    have ihx := ih (a + 1) v (by omega)
      (fun i hi => by
        obtain ⟨e2, he2, hre2⟩ := hfail (i + 1) (by omega)
        exact ⟨e2, by rwa [show a + 1 + i = a + (i + 1) from by omega], hre2⟩)
      (by rwa [show a + 1 + k = a + (k + 1) from by omega])
    rw [hf]
    simp only [retryLoop, he, hre, if_true, if_neg hne]
    rw [hf2, ihx]
    simp only [RetryTrace.mk.injEq, true_and]
    exact range_waits_cons b a k

/-- Auxiliary: the retry loop when every attempt from a through m fails
with a retryable error re-raises the last error after m + 1 - a calls. -/
lemma retryLoop_allfail {α : Type} (b : ℚ) (retryableKinds : Err → Bool) (m : Nat)
    (op : Nat → Except Err α) (em : Err) (hm : op m = .error em) :
    ∀ (k a : Nat), a + k = m →
      (∀ i, a ≤ i → i ≤ m → ∃ e, op i = .error e ∧ retryableKinds e = true) →
      retryLoop retryableKinds b m op (m + 1 - a) a =
        ⟨.error em, k + 1, (List.range k).map fun i => b * 2 ^ (a + i)⟩ := by
  intro k
  induction k with
  | zero =>
    intro a ha hfail
    have haem : a = m := by omega
    obtain ⟨e, he, hre⟩ := hfail m (by omega) (by omega)
    have heem : e = em := by rw [hm] at he; exact (Except.error.inj he).symm
    obtain ⟨f, hf⟩ : ∃ f, m + 1 - a = f + 1 := ⟨m - a, by omega⟩
    rw [hf]
    subst haem heem
    simp [retryLoop, he, hre]
  | succ k ih =>
    intro a ha hfail
    obtain ⟨e, he, hre⟩ := hfail a (by omega) (by omega)
    have hne : ¬ a = m := by omega
    obtain ⟨f, hf⟩ : ∃ f, m + 1 - a = f + 1 := ⟨m - a, by omega⟩
    have hf2 : f = m + 1 - (a + 1) := by omega
    have ihx := ih (a + 1) (by omega) (fun i h1 h2 => hfail i (by omega) h2)
    rw [hf]
    simp only [retryLoop, he, hre, if_true, if_neg hne]
    rw [hf2, ihx]
    simp only [RetryTrace.mk.injEq, true_and]
    exact range_waits_cons b a k

/-- Auxiliary: the retry loop when the first k attempts starting at a
fail with retryable errors and attempt a+k fails with a non-retryable
error propagates that error at once. -/
lemma retryLoop_nonretryable {α : Type} (b : ℚ) (retryableKinds : Err → Bool) (m : Nat)
    (op : Nat → Except Err α) (e : Err) (hnr : retryableKinds e = false) :
    ∀ (k a : Nat), a + k ≤ m →
      (∀ i, i < k → ∃ e2, op (a + i) = .error e2 ∧ retryableKinds e2 = true) →
      op (a + k) = .error e →
      retryLoop retryableKinds b m op (m + 1 - a) a =
        ⟨.error e, k + 1, (List.range k).map fun i => b * 2 ^ (a + i)⟩ := by
  intro k
  induction k with
  | zero =>
    intro a ha _ herr
    rw [Nat.add_zero] at herr
    obtain ⟨f, hf⟩ : ∃ f, m + 1 - a = f + 1 := ⟨m - a, by omega⟩
    rw [hf]
    simp [retryLoop, herr, hnr]
  | succ k ih =>
    intro a ha hfail herr
    obtain ⟨e2, he2, hre2⟩ := hfail 0 (Nat.succ_pos k)
    rw [Nat.add_zero] at he2
    have hne : ¬ a = m := by omega
    obtain ⟨f, hf⟩ : ∃ f, m + 1 - a = f + 1 := ⟨m - a, by omega⟩
    have hf2 : f = m + 1 - (a + 1) := by omega
    have ihx := ih (a + 1) (by omega)
      (fun i hi => by
        obtain ⟨e3, he3, hre3⟩ := hfail (i + 1) (by omega)
        exact ⟨e3, by rwa [show a + 1 + i = a + (i + 1) from by omega], hre3⟩)
      (by rwa [show a + 1 + k = a + (k + 1) from by omega])
    rw [hf]
    simp only [retryLoop, he2, hre2, if_true, if_neg hne]
    rw [hf2, ihx]
    simp only [RetryTrace.mk.injEq, true_and]
    exact range_waits_cons b a k

/-- Auxiliary: at start attempt 0 the waits list is b * 2 ^ i. -/
lemma range_waits_zero (b : ℚ) (k : Nat) :
    ((List.range k).map fun i => b * 2 ^ (0 + i)) = (List.range k).map fun i => b * 2 ^ i := by
  congr 1
  funext i
  rw [Nat.zero_add]

/-- C3: the retry wrapper with max_retries m, backoff_factor b and a
retryable-kind set: if the operation fails k <= m times with retryable
errors and then succeeds, the wrapper returns the success value after
exactly k + 1 invocations, having waited b * 2 ^ attempt before each
retry (attempt 0-indexed); if all m + 1 invocations fail retryably, the
last error is re-raised; a non-retryable error propagates immediately
without further waiting or invocations. -/
theorem C3_retry_semantics {α : Type} (max_retries : Nat) (backoff_factor : ℚ)
    (retryableKinds : Err → Bool) (op : Nat → Except Err α) :
    (∀ (k : Nat) (v : α), k ≤ max_retries →
      (∀ i, i < k → ∃ e, op i = .error e ∧ retryableKinds e = true) →
      op k = .ok v →
      retry_handler max_retries backoff_factor retryableKinds op =
        ⟨.ok v, k + 1, (List.range k).map fun i => backoff_factor * 2 ^ i⟩) ∧
    (∀ em, (∀ i, i ≤ max_retries → ∃ e, op i = .error e ∧ retryableKinds e = true) →
      op max_retries = .error em →
      retry_handler max_retries backoff_factor retryableKinds op =
        ⟨.error em, max_retries + 1,
          (List.range max_retries).map fun i => backoff_factor * 2 ^ i⟩) ∧
    (∀ (j : Nat) (e : Err), j ≤ max_retries →
      (∀ i, i < j → ∃ e2, op i = .error e2 ∧ retryableKinds e2 = true) →
      op j = .error e → retryableKinds e = false →
      retry_handler max_retries backoff_factor retryableKinds op =
        ⟨.error e, j + 1, (List.range j).map fun i => backoff_factor * 2 ^ i⟩) := by
  refine ⟨?_, ?_, ?_⟩
  · intro k v hk hfail hok
    have h := retryLoop_ok backoff_factor retryableKinds max_retries op k 0 v
      (by omega) (fun i hi => by simpa using hfail i hi) (by simpa using hok)
    rw [Nat.sub_zero] at h
    unfold retry_handler
    rw [h, range_waits_zero]
  · intro em hfail hm
    have h := retryLoop_allfail backoff_factor retryableKinds max_retries op em hm
      max_retries 0 (by omega) (fun i _ h2 => hfail i h2)
    rw [Nat.sub_zero] at h
    unfold retry_handler
    rw [h, range_waits_zero]
  · intro j e hj hfail herr hnr
    have h := retryLoop_nonretryable backoff_factor retryableKinds max_retries op e hnr j 0
      (by omega) (fun i hi => by simpa using hfail i hi) (by simpa using herr)
    rw [Nat.sub_zero] at h
    unfold retry_handler
    rw [h, range_waits_zero]

/-- C3 witness: an operation failing twice then succeeding under
retry_handler with max_retries 2 and backoff_factor 1 returns the
success value after exactly 3 invocations, waiting 1 then 2 seconds. -/
theorem C3_witness :
    retry_handler 2 1 (fun _ => true) opW = ⟨.ok "done", 3, [1, 2]⟩ := by
  have h := (C3_retry_semantics 2 1 (fun _ => true) opW).1 2 "done" (by omega)
    (fun i hi => ⟨.generic "transient", by simp [opW, hi], rfl⟩)
    (by simp [opW])
  rw [h]
  norm_num [List.range_succ]

/-- Auxiliary: the source context loop with a natural-number running
length agrees everywhere with the amended claim wording that tracks the
budget as an integer and truncates when strictly more than 100
characters remain. -/
lemma buildContextParts_go_eq_amended (docs : List PyStr) :
    ∀ (i n : Nat), buildContextParts.go docs i n = contextAssemblyAmended.goA docs i (n : Int) := by
  induction docs with
  | nil => intro i n; rfl
  | cons d rest ih =>
    intro i n
    simp only [buildContextParts.go, contextAssemblyAmended.goA]
    by_cases h0 : (pyStrip d).length = 0
    · rw [if_pos h0, if_pos h0]
      exact ih (i + 1) n
    · rw [if_neg h0, if_neg h0]
      by_cases h4 : n + (pyStrip d).length > 4000
      · have h4i : (n : Int) + ((pyStrip d).length : Int) > 4000 := by omega
        rw [if_pos h4, if_pos h4i]
        by_cases h100 : 4000 - n > 100
        · have h100i : (4000 : Int) - (n : Int) > 100 := by omega
          have htn : ((4000 : Int) - (n : Int)).toNat = 4000 - n := by omega
          rw [if_pos h100, if_pos h100i, htn,
            ih (i + 1) (n + ((pyStrip d).take (4000 - n) ++ threeDots).length)]
          congr 1
        · have h100i : ¬ ((4000 : Int) - (n : Int) > 100) := by omega
          rw [if_neg h100, if_neg h100i]
      · have h4i : ¬ ((n : Int) + ((pyStrip d).length : Int) > 4000) := by omega
        rw [if_neg h4, if_neg h4i, ih (i + 1) (n + (pyStrip d).length)]
        congr 1

/-- Auxiliary: stripping a replicate of a non-whitespace character is
the identity. -/
lemma dropWhile_replicate_of_false (p : Char → Bool) (n : Nat) (c : Char) (h : p c = false) :
    List.dropWhile p (List.replicate n c) = List.replicate n c := by
  cases n with
  | zero => rfl
  | succ k => simp [List.replicate_succ, List.dropWhile_cons, h]

/-- Auxiliary: pyStrip leaves a replicate of a non-whitespace character
unchanged. -/
lemma pyStrip_replicate (n : Nat) (c : Char) (h : c.isWhitespace = false) :
    pyStrip (List.replicate n c) = List.replicate n c := by
  unfold pyStrip
  rw [dropWhile_replicate_of_false _ _ _ h, List.reverse_replicate,
    dropWhile_replicate_of_false _ _ _ h, List.reverse_replicate]

/-- Auxiliary: the source loop on a 3900-character chunk followed by a
200-character chunk keeps only the first chunk (remaining budget is
exactly 100, and 100 > 100 fails). -/
lemma buildContextParts_cex_eval :
    buildContextParts [List.replicate 3900 'a', List.replicate 200 'b'] =
      [documentLabel 1 ++ List.replicate 3900 'a'] := by
  have hA : pyStrip (List.replicate 3900 'a') = List.replicate 3900 'a' :=
    pyStrip_replicate 3900 'a' rfl
  have hB : pyStrip (List.replicate 200 'b') = List.replicate 200 'b' :=
    pyStrip_replicate 200 'b' rfl
  rw [buildContextParts, buildContextParts.go, hA]
  norm_num
  rw [buildContextParts.go, hB]
  norm_num

/-- Auxiliary: the claim-worded assembly (threshold at least 100) on the
same input truncates the second chunk to 100 characters plus an
ellipsis. -/
lemma contextAssemblyClaim_cex_eval :
    contextAssemblyClaim [List.replicate 3900 'a', List.replicate 200 'b'] =
      [documentLabel 1 ++ List.replicate 3900 'a',
        documentLabel 2 ++ (List.replicate 100 'b' ++ threeDots)] := by
  have hA : pyStrip (List.replicate 3900 'a') = List.replicate 3900 'a' :=
    pyStrip_replicate 3900 'a' rfl
  have hB : pyStrip (List.replicate 200 'b') = List.replicate 200 'b' :=
    pyStrip_replicate 200 'b' rfl
  rw [contextAssemblyClaim, contextAssemblyClaim.goC, hA]
  norm_num
  rw [contextAssemblyClaim.goC, hB]
  norm_num [List.take_replicate]
  exact ⟨rfl, rfl⟩

/-- C6 counterexample: with a retrieved chunk of 3900 characters
followed by one of 200 characters, exactly 100 characters of budget
remain; the claim as stated (truncate when at least 100 remain) would
truncate and append the second chunk, but the code stops, so the claimed
assembly differs from the code on this input. -/
theorem C6_counterexample :
    buildContextParts [List.replicate 3900 'a', List.replicate 200 'b'] ≠
      contextAssemblyClaim [List.replicate 3900 'a', List.replicate 200 'b'] := by
  rw [buildContextParts_cex_eval, contextAssemblyClaim_cex_eval]
  intro h
  have hlen := congrArg List.length h
  rw [List.length_cons, List.length_cons, List.length_cons, List.length_nil] at hlen
  omega

/-- C6 amended: when assembling the per-question context, chunk contents
are concatenated each prefixed with an ordinal label, appending stops
once the 4000-character budget is reached; a chunk whose insertion would
exceed the budget is truncated and suffixed with an ellipsis when MORE
THAN 100 characters of budget remain, and otherwise no further chunks
are appended. -/
theorem C6_amended (docs : List PyStr) :
    buildContextParts docs = contextAssemblyAmended docs := by
  have h := buildContextParts_go_eq_amended docs 1 0
  rw [buildContextParts, contextAssemblyAmended]
  exact h

/-- C4 counterexample: with the registry not ready, the handler rejects
the request before any stage with an HTTP 503 service-unavailable error,
which is not an error of the ResourceInitialization kind: the claim that
a ResourceInitializationKind error is raised fails on this input. -/
theorem C4_counterexample :
    run_submission (GlobalResources.is_initialized gNotReady) ["q"] stubStages =
      (.error (.httpException 503 "Service unavailable: Global resources not initialized"),
        []) ∧
    Err.isResourceInit
        (.httpException 503 "Service unavailable: Global resources not initialized") = false :=
  ⟨rfl, rfl⟩

/-- C4 amended: if the Resource Registry is not ready (is_initialized
false) when the request handler is invoked, the handler immediately
raises an HTTP 503 service-unavailable error and no pipeline stage
(download, chunk, index, answer) runs. -/
theorem C4_amended (g : GlobalResources) (questions : List String) (st : Stages)
    (h : GlobalResources.is_initialized g = false) :
    run_submission (GlobalResources.is_initialized g) questions st =
      (.error (.httpException 503 "Service unavailable: Global resources not initialized"),
        []) := by
  rw [h]
  rfl

/-- C4 witness: the amended statement evaluated at a concrete not-ready
registry. -/
theorem C4_witness :
    run_submission (GlobalResources.is_initialized gNotReady) ["q1"] stubStages =
      (.error (.httpException 503 "Service unavailable: Global resources not initialized"),
        []) :=
  C4_amended gNotReady ["q1"] stubStages rfl

/-- C5: a download that fails after the temporary file was created (for
example a connection reset during the chunked body read) exits
_process_document_primary with the temporary file still present, while a
successful run deletes it: the cleanup guarantee does not cover every
exit path. -/
theorem C5_temp_file_leak :
    process_document_primary
        (.failAfterCreate (.externalService "document_download" "connection reset"))
        (.ok [['x']]) "tmp0" [] =
      (.error (.externalService "document_download" "connection reset"), ["tmp0"]) ∧
    process_document_primary .success (.ok [['x']]) "tmp0" [] = (.ok [['x']], []) :=
  ⟨rfl, rfl⟩

/-- C7: a request whose question list is empty or longer than 10 is
rejected by the handler with an HTTP 400 client error before any
pipeline stage is started. -/
theorem C7_question_bounds (questions : List String) (st : Stages)
    (h : questions.length = 0 ∨ questions.length > 10) :
    run_submission true questions st =
      (.error (.httpException 400
        (if questions.length = 0 then "At least one question is required"
          else "Too many questions (maximum 10 allowed)")), []) := by
  rcases h with h | h
  · simp [run_submission, h]
  · have h0 : ¬ questions.length = 0 := by omega
    simp [run_submission, h0, h]

/-- C7 witness: eleven questions are rejected with the client-error
message and no stage runs. -/
theorem C7_witness :
    run_submission true (List.replicate 11 "q") stubStages =
      (.error (.httpException 400 "Too many questions (maximum 10 allowed)"), []) := by
  have h := C7_question_bounds (List.replicate 11 "q") stubStages (Or.inr (by simp))
  simpa using h

/-- C8: constructing GlobalResources again returns the existing
instance unchanged (fields, hence handles, are never reset once __init__
has run), any number of repeated constructions leaves the class state
fixed, and once is_initialized is true it stays true under any number of
further constructions. -/
theorem C8_singleton (g : GlobalResources) (n : Nat) (h : g.initializedFlag = true) :
    GlobalResources.construct (some g) = g ∧
    GlobalResources.constructN n (some g) = some g ∧
    (GlobalResources.is_initialized g = true →
      (GlobalResources.constructN n (some g)).map GlobalResources.is_initialized =
        some true) := by
  have hc : GlobalResources.construct (some g) = g := by
    simp [GlobalResources.construct, GlobalResources.pyInit, h]
  have hn : ∀ m, GlobalResources.constructN m (some g) = some g := by
    intro m
    induction m with
    | zero => rfl
    | succ k ih => simp [GlobalResources.constructN, ih, hc]
  exact ⟨hc, hn n, fun hi => by rw [hn n]; simp [hi]⟩

/-- C8 witness: a ready registry instance is untouched by four more
constructions. -/
theorem C8_witness :
    GlobalResources.constructN 4 (some gReady) = some gReady :=
  (C8_singleton gReady 4 rfl).2.1

/-- Auxiliary: dict.pop misses when no key matches. -/
lemma popActive_eq_none_of_not_mem (request_id : String)
    (l : List (String × RequestMetrics)) (h : ∀ p ∈ l, p.1 ≠ request_id) :
    popActive request_id l = none := by
  induction l with
  | nil => rfl
  | cons kv rest ih =>
    simp only [popActive]
    rw [if_neg (h kv (by simp)), ih fun p hp => h p (by simp [hp])]
    rfl

/-- C9: after every finish_request the completed history holds at most
100 entries (given the invariant held before), the new history is a
suffix of the old history extended with the finished entry (so eviction
removes the oldest entries and keeps the most recent), and finishing an
untracked request id returns none and leaves the monitor unchanged. -/
theorem C9_history_bound (pm : PerformanceMonitor) (rid : String) :
    (pm.completed.length ≤ 100 →
      (PerformanceMonitor.finish_request pm rid).2.completed.length ≤ 100) ∧
    List.IsSuffix (PerformanceMonitor.finish_request pm rid).2.completed
      (pm.completed ++ (PerformanceMonitor.finish_request pm rid).1.toList) ∧
    ((∀ p ∈ pm.active, p.1 ≠ rid) → PerformanceMonitor.finish_request pm rid = (none, pm)) := by
  refine ⟨?_, ?_, ?_⟩
  · intro hle
    cases hpop : popActive rid pm.active with
    | none => simpa [PerformanceMonitor.finish_request, hpop] using hle
    | some pr =>
      obtain ⟨m, rest⟩ := pr
      simp only [PerformanceMonitor.finish_request, hpop]
      split_ifs with hgt
      · simp only [List.length_drop]
        omega
      · simp only [List.length_append, List.length_cons, List.length_nil] at hgt ⊢
        omega
  · cases hpop : popActive rid pm.active with
    | none =>
      simp only [PerformanceMonitor.finish_request, hpop, Option.toList_none, List.append_nil]
      exact List.suffix_refl _
    | some pr =>
      obtain ⟨m, rest⟩ := pr
      simp only [PerformanceMonitor.finish_request, hpop]
      split_ifs with hgt
      · simp only [Option.toList_some]
        exact ⟨_, List.take_append_drop _ _⟩
      · simp only [Option.toList_some]
        exact List.suffix_refl _
  · intro hmem
    simp [PerformanceMonitor.finish_request, popActive_eq_none_of_not_mem rid pm.active hmem]

/-- C9 witness: finishing a request id that is not tracked returns none
and leaves the monitor unchanged. -/
theorem C9_witness :
    PerformanceMonitor.finish_request ⟨[("a", ⟨"a", false⟩)], []⟩ "b" =
      (none, (⟨[("a", ⟨"a", false⟩)], []⟩ : PerformanceMonitor)) :=
  (C9_history_bound ⟨[("a", ⟨"a", false⟩)], []⟩ "b").2.2 (by decide)
